import Mathlib

/-!
Shallow embedding of the MedExplain query-resolution, saved-answer and
admin-ingestion flows (src/unnamed/part_006 `Chat`, src/src/pages/Cases.tsx,
src/src/pages/Admin.tsx) over the relational schema of src/unnamed/part_000.

Conventions of the embedding:
  * Rows are structures holding the columns the flows read or write; nullable
    columns are `Option`-typed. Opaque uuid keys are modelled as `Nat`.
  * The storage layer is a `Db` structure of row lists; storage-returned order
    is list order. Every supabase round trip of the flow is one entry of the
    returned call trace, and a `Faults` record says which round trips fail
    (a failing read returns an error the client may or may not inspect,
    exactly as the TypeScript does).
  * JavaScript string semantics are made explicit: `jsOr` is the `||`
    operator on nullable strings (null and the empty string are falsy) and
    `jsStr` is template-literal interpolation (null prints as "null").
  * Postgres ILIKE is modelled on lower-cased character lists, with the two
    standard wildcards: `%` (any sequence) and `_` (any one character).
-/

namespace MedExplain

/-! ## JavaScript string semantics -/

/-- JS truthiness of a nullable string: null/undefined and "" are falsy. -/
def jsTruthy : Option String → Bool
  | none => false
  | some s => !(s == "")

/-- The JS `||` operator restricted to nullable strings. -/
def jsOr (a b : Option String) : Option String :=
  if jsTruthy a then a else b

/-- JS template-literal interpolation of a nullable string value. -/
def jsStr : Option String → String
  | none => "null"
  | some s => s

/-- JS template-literal interpolation of a nullable integer value. -/
def jsInt : Option Int → String
  | none => "null"
  | some n => toString n

/-! ## Postgres ILIKE -/

/-- All suffixes of a character list, longest first (the list itself down
to `[]`). -/
def suffixes : List Char → List (List Char)
  | [] => [[]]
  | c :: t => (c :: t) :: suffixes t

/-- Postgres LIKE pattern matching on character lists: `%` matches any
sequence, `_` matches any one character, any other pattern character
matches itself. -/
def likeMatches : List Char → List Char → Bool
  | [], s => s.isEmpty
  | p :: ps, s =>
    if p = '%' then (suffixes s).any fun t => likeMatches ps t
    else
      match s with
      | [] => false
      | c :: s2 => if p = '_' then likeMatches ps s2 else p == c && likeMatches ps s2

/-- The characters of a string, lower-cased (Postgres ILIKE case folding). -/
def lowerChars (s : String) : List Char :=
  s.data.map Char.toLower

/-- Models `.ilike(column, "%" + input + "%")` of the source: case-insensitive
LIKE with the user input spliced between two `%` wildcards. -/
def ilikeContains (input field : String) : Bool :=
  likeMatches ('%' :: (lowerChars input ++ ['%'])) (lowerChars field)

/-- Case-insensitive substring containment on character lists: some suffix
of the haystack starts with the needle. -/
def containsSub : List Char → List Char → Bool
  | n, [] => n.isPrefixOf []
  | n, c :: t => n.isPrefixOf (c :: t) || containsSub n t

/-! ## Data model (src/unnamed/part_000) -/

/-- A row of `drugs` (columns the flow reads). `name` is NOT NULL. -/
structure Drug where
  id : Nat
  name : String
deriving DecidableEq

/-- A row of `genes`. `symbol` is NOT NULL. -/
structure Gene where
  id : Nat
  symbol : String
deriving DecidableEq

/-- A row of `phenotypes`. `phenotype` is NOT NULL, `description` nullable. -/
structure Phenotype where
  id : Nat
  gene_id : Option Nat
  phenotype : String
  description : Option String
deriving DecidableEq

/-- A row of `guidelines`; every text column is nullable. -/
structure Guideline where
  id : Nat
  drug_id : Option Nat
  gene_id : Option Nat
  source_id : Option Nat
  recommendation : Option String
  evidence_level : Option String
  patient_summary : Option String
  clinician_summary : Option String
deriving DecidableEq

/-- A row of `interactions`; `action`, `summary`, `evidence` are nullable. -/
structure Interaction where
  id : Nat
  drug_id : Option Nat
  gene_id : Option Nat
  phenotype_id : Option Nat
  guideline_id : Option Nat
  action : Option String
  summary : Option String
  evidence : Option String
deriving DecidableEq

/-- A row of `citations`; bibliographic columns are nullable. -/
structure Citation where
  id : Nat
  guideline_id : Option Nat
  title : Option String
  authors : Option String
  journal : Option String
  year : Option Int
  url : Option String
deriving DecidableEq

/-- A row of `usage_monthly`: one counter per (user, "YYYY-MM") month,
UNIQUE(user_id, month). Timestamps are not modelled. -/
structure UsageRow where
  user_id : Nat
  month : String
  query_count : Int
deriving DecidableEq

/-- A row of `saved_answers`: the denormalized snapshot a user saves. -/
structure SavedAnswerRow where
  id : Nat
  user_id : Nat
  drug_name : String
  gene_name : String
  user_type : String
  answer : String
deriving DecidableEq

/-- A row of `ingestion_jobs` (columns the admin flow writes). -/
structure IngestionJob where
  job_type : String
  status : String
  started_at : Option String
deriving DecidableEq

/-- The storage layer: every table as a list of rows in storage order. -/
structure Db where
  drugs : List Drug
  genes : List Gene
  phenotypes : List Phenotype
  guidelines : List Guideline
  interactions : List Interaction
  citations : List Citation
  usage_monthly : List UsageRow
  saved_answers : List SavedAnswerRow
  ingestion_jobs : List IngestionJob
deriving DecidableEq

/-! ## Query resolution flow (src/unnamed/part_006, handleSubmit) -/

/-- The `userType` radio state of the Chat page. -/
inductive UserType where
  | Patient
  | Clinician
deriving DecidableEq

/-- The string stored in `saved_answers.user_type` for a view mode. -/
def userTypeStr : UserType → String
  | .Patient => "Patient"
  | .Clinician => "Clinician"

/-- The `QueryResult` interface of the Chat page. -/
structure QueryResult where
  drug : String
  gene : String
  answer : String
  citations : List String
deriving DecidableEq

/-- What the user sees after `handleSubmit`: the limit-reached banner, the
error box with its text, or a rendered result. -/
inductive Outcome where
  | limitReached
  | errorMsg (msg : String)
  | success (r : QueryResult)
deriving DecidableEq

/-- One storage round trip of `handleSubmit`, in program order. -/
inductive Call where
  | usageRead
  | drugRead
  | geneRead
  | interactionsRead
  | citationsRead
  | usageUpdate
  | usageInsert
deriving DecidableEq

/-- Which storage round trips fail, and with what error message. The
TypeScript only inspects the error of the usage read (it throws there);
the drug/gene/interactions/citations reads ignore their error and see
null data; the usage write ignores its error entirely. -/
structure Faults where
  usageRead : Option String
  drugRead : Option String
  geneRead : Option String
  interactionsRead : Option String
  citationsRead : Option String
  usageWrite : Option String
deriving DecidableEq

/-- Every storage round trip succeeds. -/
def noFaults : Faults :=
  ⟨none, none, none, none, none, none⟩

/-- The literal error text shown when drug, gene or interaction is absent. -/
def notFoundMsg : String := "Not in database yet."

/-- Models the message of the TypeError thrown when the winning interaction
has no guideline and the code reads `guideline.id`. -/
def nullDerefMsg : String := "TypeError: cannot read id of null"

/-- The `usage_monthly` row of the requester for the month (maybeSingle; the
UNIQUE(user_id, month) constraint makes at most one row match). -/
def findUsage (db : Db) (userId : Nat) (month : String) : Option UsageRow :=
  db.usage_monthly.find? fun r => r.user_id == userId && r.month == month

/-- The check `usageData && usageData.query_count >= 50` of the source. -/
def quotaHit : Option UsageRow → Bool
  | none => false
  | some u => decide (u.query_count ≥ 50)

/-- Drug lookup: first drug whose name ILIKE-matches `%drugInput%`. -/
def resolveDrug (db : Db) (drugInput : String) : Option Drug :=
  db.drugs.find? fun d => ilikeContains drugInput d.name

/-- Gene lookup: first gene whose symbol ILIKE-matches `%geneInput%`. -/
def resolveGene (db : Db) (geneInput : String) : Option Gene :=
  db.genes.find? fun g => ilikeContains geneInput g.symbol

/-- All interactions of the resolved (drug, gene) pair, in storage order. -/
def interactionsFor (db : Db) (drugId geneId : Nat) : List Interaction :=
  db.interactions.filter fun i => i.drug_id == some drugId && i.gene_id == some geneId

/-- The guideline joined onto an interaction (`guideline:guidelines(...)`). -/
def findGuideline (db : Db) (i : Interaction) : Option Guideline :=
  i.guideline_id.bind fun gid => db.guidelines.find? fun gl => gl.id == gid

/-- The phenotype joined onto an interaction (`phenotype:phenotypes(...)`). -/
def findPhenotype (db : Db) (i : Interaction) : Option Phenotype :=
  i.phenotype_id.bind fun pid => db.phenotypes.find? fun ph => ph.id == pid

/-- Citations of a guideline, in storage order. -/
def citationsFor (db : Db) (guidelineId : Nat) : List Citation :=
  db.citations.filter fun c => c.guideline_id == some guidelineId

/-- One citation rendered as `"{title} - {authors} ({journal}, {year})"`. -/
def citationLine (c : Citation) : String :=
  jsStr c.title ++ " - " ++ jsStr c.authors ++ " (" ++ jsStr c.journal ++ ", " ++ jsInt c.year ++ ")"

/-- Patient-mode answer:
`guideline.patient_summary || interaction.summary || "No information available."`. -/
def renderPatient (gl : Guideline) (i : Interaction) : String :=
  jsStr (jsOr (jsOr gl.patient_summary i.summary) (some "No information available."))

/-- Clinician-mode answer: the template literal of the source, backtick for
backtick — main summary (`clinician_summary || summary`), then the labeled
Action, Evidence, Phenotype and Evidence Level lines. Only the phenotype
label and the evidence level carry a `|| "N/A"` fallback. -/
def renderClinician (gl : Guideline) (i : Interaction) (ph : Option Phenotype) : String :=
  jsStr (jsOr gl.clinician_summary i.summary) ++ "\n\nAction: " ++ jsStr i.action ++
    "\n\nEvidence: " ++ jsStr i.evidence ++ "\n\nPhenotype: " ++
    jsStr (jsOr (ph.map fun p => p.phenotype) (some "N/A")) ++ "\n\nEvidence Level: " ++
    jsStr (jsOr gl.evidence_level (some "N/A"))

/-- What one run of `handleSubmit` produced: the user-visible outcome, the
storage state afterwards, and the storage round trips it made. -/
structure SubmitOut where
  outcome : Outcome
  db : Db
  calls : List Call
deriving DecidableEq

/-- Models `handleSubmit` of the Chat page, statement for statement:
read the usage row for the current month (throwing on its error); return
the limit banner when an existing row has `query_count >= 50`; resolve drug
and gene by ILIKE (errors of those reads are ignored, so a failed read
looks like no match); fail with the one NotFound literal when either is
missing or the (drug, gene) interaction list is empty; take the first
interaction, join its guideline (a missing guideline makes `guideline.id`
throw) and citations; render by view mode; then upsert `usage_monthly`
(update errors are ignored: on a failed write the row stays as it was). -/
def handleSubmit (f : Faults) (db : Db) (userId : Nat) (month : String)
    (drugInput geneInput : String) (userType : UserType) : SubmitOut :=
  match f.usageRead with
  | some m => ⟨.errorMsg m, db, [.usageRead]⟩
  | none =>
    if quotaHit (findUsage db userId month) then ⟨.limitReached, db, [.usageRead]⟩
    else
      match (if f.drugRead.isSome then none else resolveDrug db drugInput),
            (if f.geneRead.isSome then none else resolveGene db geneInput) with
      | some d, some g =>
        match (if f.interactionsRead.isSome then [] else interactionsFor db d.id g.id) with
        | [] => ⟨.errorMsg notFoundMsg, db, [.usageRead, .drugRead, .geneRead, .interactionsRead]⟩
        | i :: _ =>
          match findGuideline db i with
          | none => ⟨.errorMsg nullDerefMsg, db, [.usageRead, .drugRead, .geneRead, .interactionsRead]⟩
          | some gl =>
            let citations :=
              ((if f.citationsRead.isSome then none else some (citationsFor db gl.id)).getD []).map
                citationLine
            let answerText :=
              match userType with
              | .Patient => renderPatient gl i
              | .Clinician => renderClinician gl i (findPhenotype db i)
            let res : QueryResult := ⟨d.name, g.symbol, answerText, citations⟩
            match findUsage db userId month with
            | some u =>
              ⟨.success res,
               (if f.usageWrite.isSome then db else
                 { db with
                   usage_monthly := db.usage_monthly.map fun r =>
                     if r.user_id == userId && r.month == month then
                       { r with query_count := u.query_count + 1 }
                     else r }),
               [.usageRead, .drugRead, .geneRead, .interactionsRead, .citationsRead, .usageUpdate]⟩
            | none =>
              ⟨.success res,
               (if f.usageWrite.isSome then db else
                 { db with usage_monthly := db.usage_monthly ++ [⟨userId, month, 1⟩] }),
               [.usageRead, .drugRead, .geneRead, .interactionsRead, .citationsRead, .usageInsert]⟩
      | _, _ => ⟨.errorMsg notFoundMsg, db, [.usageRead, .drugRead, .geneRead]⟩

/-! ## Saved answers (part_006 handleSave, Cases.tsx handleDelete) -/

/-- Models `handleSave`: insert a denormalized snapshot of the rendered result into
`saved_answers`. `newId` is the key the storage layer generates. -/
def handleSave (db : Db) (newId userId : Nat) (r : QueryResult) (ut : UserType) : Db :=
  { db with
    saved_answers := db.saved_answers ++ [⟨newId, userId, r.drug, r.gene, userTypeStr ut, r.answer⟩] }

/-- Models `handleDelete` of Cases.tsx under the row-level DELETE policy of
part_000: the client filters on `id` alone, the policy adds
`auth.uid() = user_id`, so exactly the rows matching both go away. -/
def handleDelete (db : Db) (callerId rowId : Nat) : Db :=
  { db with
    saved_answers := db.saved_answers.filter fun r => !(r.id == rowId && r.user_id == callerId) }

/-- An out-of-band reference-data edit: overwrite the two summaries of one
guideline (privileged access; no write policy exists for `guidelines`). -/
def setGuidelineSummaries (db : Db) (gid : Nat) (p c : Option String) : Db :=
  { db with
    guidelines := db.guidelines.map fun gl =>
      if gl.id == gid then { gl with patient_summary := p, clinician_summary := c } else gl }

/-- An out-of-band reference-data edit: overwrite one interaction summary. -/
def setInteractionSummary (db : Db) (iid : Nat) (s : Option String) : Db :=
  { db with
    interactions := db.interactions.map fun i =>
      if i.id == iid then { i with summary := s } else i }

/-! ## Admin ingestion trigger (Admin.tsx triggerWebhook) -/

/-- A toast shown by the admin page. -/
inductive Toast where
  | success (msg : String)
  | error (msg : String)
deriving DecidableEq

/-- Models `triggerWebhook`: POST the webhook; on a non-ok response throw
"Webhook failed" (no job row); on an ok response insert a pending
`ingestion_jobs` row and toast success. `webhookOk` is `response.ok`,
`now` the `triggered_at`/`started_at` timestamp string. -/
def triggerWebhook (db : Db) (jobType : String) (webhookOk : Bool) (now : String) :
    Db × Toast :=
  if webhookOk then
    ({ db with ingestion_jobs := db.ingestion_jobs ++ [⟨jobType, "pending", some now⟩] },
     .success (jobType ++ " triggered successfully"))
  else
    (db, .error "Webhook failed")

/-! ## Spec-side definitions used to compare against the source embedding -/

/-- The clinician renderer as claim C3 words it: the same five labeled
sections, but every section falling back independently to "N/A" when its
field is absent. -/
def renderClinicianClaim (gl : Guideline) (i : Interaction) (ph : Option Phenotype) : String :=
  (jsOr gl.clinician_summary i.summary).getD "N/A" ++ "\n\nAction: " ++ i.action.getD "N/A" ++
    "\n\nEvidence: " ++ i.evidence.getD "N/A" ++ "\n\nPhenotype: " ++
    (ph.map fun p => p.phenotype).getD "N/A" ++ "\n\nEvidence Level: " ++
    gl.evidence_level.getD "N/A"

/-- The patient renderer as claim C5 words it: `patient_summary` when
present (non-null), else `summary` when present, else the literal. -/
def renderPatientClaim (gl : Guideline) (i : Interaction) : String :=
  gl.patient_summary.getD (i.summary.getD "No information available.")

/-- A nullable string that is present and non-empty, else `none`: what the
JS `||` chain actually tests. -/
def presentNonempty : Option String → Option String
  | some s => if s = "" then none else some s
  | none => none

/-- The patient renderer as the amended claim words it: `patient_summary`
when present and non-empty, else `summary` when present and non-empty,
else the literal. -/
def renderPatientAmended (gl : Guideline) (i : Interaction) : String :=
  (presentNonempty gl.patient_summary).getD
    ((presentNonempty i.summary).getD "No information available.")

/-! ## Concrete reference data for witnesses and counterexamples -/

/-- A guideline for the end-to-end scenario: patient summary "Reduce dose". -/
def glRef : Guideline :=
  ⟨10, some 1, some 2, none, none, some "High", some "Reduce dose", some "Reduce starting dose"⟩

/-- The Warfarin/CYP2C9 interaction pointing at `glRef`. -/
def interRef : Interaction :=
  ⟨20, some 1, some 2, none, some 10, some "Adjust dose", some "Interaction summary", some "PK evidence"⟩

/-- One citation of `glRef`. -/
def citRef : Citation :=
  ⟨30, some 10, some "CPIC guideline", some "Johnson et al", some "CPT", some 2017, none⟩

/-- Reference data with one drug "Warfarin", one gene "CYP2C9", one matching
interaction with guideline and citation, and no usage rows. -/
def dbRef : Db :=
  ⟨[⟨1, "Warfarin"⟩], [⟨2, "CYP2C9"⟩], [], [glRef], [interRef], [citRef], [], [], []⟩

/-- The store `dbRef` with user 7 already at the monthly quota for 2026-10. -/
def dbQuota : Db :=
  { dbRef with usage_monthly := [⟨7, "2026-10", 50⟩] }

/-- Guideline with no clinician summary, no evidence level (C3/C5 inputs). -/
def glCex : Guideline :=
  ⟨11, some 1, some 2, none, none, none, some "", some "Use low dose"⟩

/-- Interaction with an absent action and summary but present evidence. -/
def iCex : Interaction :=
  ⟨21, some 1, some 2, none, some 11, none, none, some "PK study"⟩

/-- Faults where only the drug-table read fails. -/
def faultsDrugRead : Faults :=
  ⟨none, some "connection reset", none, none, none, none⟩

end MedExplain

/-! # Lemmas and claim theorems -/

namespace MedExplain

/-- The empty suffix is a suffix of every character list. -/
theorem nil_mem_suffixes (s : List Char) : [] ∈ suffixes s := by
  induction s with
  | nil => simp [suffixes]
  | cons c t ih => simp [suffixes]; exact ih

/-- A lone `%` wildcard matches every string. -/
theorem likeMatches_percent_nil (s : List Char) : likeMatches ['%'] s = true := by
  have h1 : likeMatches ['%'] s = (suffixes s).any fun t => likeMatches [] t := by
    simp [likeMatches]
  rw [h1, List.any_eq_true]
  exact ⟨[], nil_mem_suffixes s, rfl⟩

/-- A wildcard-free pattern followed by `%` matches exactly the strings it
is a prefix of. -/
theorem likeMatches_plain_percent (mid : List Char)
    (h : ∀ c ∈ mid, c ≠ '%' ∧ c ≠ '_') (s : List Char) :
    likeMatches (mid ++ ['%']) s = mid.isPrefixOf s := by
  induction mid generalizing s with
  | nil => simpa [List.isPrefixOf] using likeMatches_percent_nil s
  | cons m rest ih =>
    have hm := h m (by simp)
    have hrest : ∀ c ∈ rest, c ≠ '%' ∧ c ≠ '_' := fun c hc => h c (by simp [hc])
    cases s with
    | nil => simp [likeMatches, hm.1, List.isPrefixOf]
    | cons c s2 => simp [likeMatches, hm.1, hm.2, List.isPrefixOf, ih hrest]

/-- Substring containment is a prefix test over all suffixes. -/
theorem containsSub_eq_any (n s : List Char) :
    containsSub n s = (suffixes s).any fun t => n.isPrefixOf t := by
  induction s with
  | nil => simp [containsSub, suffixes]
  | cons c t ih => simp [containsSub, suffixes, ih]

/-- For a wildcard-free input, the ILIKE `%input%` lookup is exactly
case-insensitive substring containment. -/
theorem ilikeContains_eq_containsSub (input field : String)
    (h : ∀ c ∈ lowerChars input, c ≠ '%' ∧ c ≠ '_') :
    ilikeContains input field = containsSub (lowerChars input) (lowerChars field) := by
  have hfun : (fun t => likeMatches (lowerChars input ++ ['%']) t)
      = fun t => (lowerChars input).isPrefixOf t :=
    funext fun t => likeMatches_plain_percent _ h t
  have h1 : ilikeContains input field
      = (suffixes (lowerChars field)).any fun t => likeMatches (lowerChars input ++ ['%']) t := by
    simp [ilikeContains, likeMatches]
  rw [h1, hfun, containsSub_eq_any]

/-- If lower-casing a character yields a LIKE wildcard, the character was
that wildcard already (case folding only moves 65..90 into 97..122). -/
theorem toLower_wild_eq (c : Char) (hw : c.toLower = '%' ∨ c.toLower = '_') :
    c.toLower = c := by
  unfold Char.toLower
  simp only []
  by_cases h : c.toNat ≥ 65 ∧ c.toNat ≤ 90
  case pos =>
    exfalso
    have hvalid : (c.toNat + 32).isValidChar := by
      left
      have := h.2
      omega
    have hv : (Char.ofNat (c.toNat + 32)).toNat = c.toNat + 32 := by
      simp only [Char.toNat] at hvalid ⊢
      unfold Char.ofNat
      rw [dif_pos hvalid]
      rfl
    have hlow : c.toLower = Char.ofNat (c.toNat + 32) := by
      unfold Char.toLower
      simp [h]
    rw [hlow] at hw
    rcases hw with hw | hw
    · have h37 : ('%').toNat = 37 := by decide
      rw [hw] at hv
      rw [h37] at hv
      omega
    · have h95 : ('_').toNat = 95 := by decide
      rw [hw] at hv
      rw [h95] at hv
      omega
  case neg =>
    simp [h]

/-- A wildcard-free input stays wildcard-free after case folding. -/
theorem lowerChars_no_wild (input : String)
    (h : ∀ c ∈ input.data, c ≠ '%' ∧ c ≠ '_') :
    ∀ c ∈ lowerChars input, c ≠ '%' ∧ c ≠ '_' := by
  intro c hc
  simp only [lowerChars, List.mem_map] at hc
  obtain ⟨c0, hc0, rfl⟩ := hc
  constructor
  · intro hbad
    have heq := toLower_wild_eq c0 (Or.inl hbad)
    rw [heq] at hbad
    exact (h c0 hc0).1 hbad
  · intro hbad
    have heq := toLower_wild_eq c0 (Or.inr hbad)
    rw [heq] at hbad
    exact (h c0 hc0).2 hbad

/-- C1: when the requester already has a UsageMonthly row for the month with
query_count at or above 50, handleSubmit returns the limit banner, leaves
the storage state untouched, and its only storage round trip is the usage
read — no drug, gene or interaction lookup and no write. -/
theorem quota_exceeded_blocks_all_work (db : Db) (userId : Nat)
    (month drugInput geneInput : String) (t : UserType) (u : UsageRow)
    (hrow : findUsage db userId month = some u) (hcnt : u.query_count ≥ 50) :
    handleSubmit noFaults db userId month drugInput geneInput t
      = ⟨.limitReached, db, [.usageRead]⟩ := by
  unfold handleSubmit
  simp [noFaults, hrow, quotaHit, hcnt]

/-- C1 witness: user 7 at exactly 50 queries in 2026-10 is blocked with no
side effects. -/
theorem quota_exceeded_blocks_all_work_witness :
    handleSubmit noFaults dbQuota 7 "2026-10" "Warfarin" "CYP2C9" .Patient
      = ⟨.limitReached, dbQuota, [.usageRead]⟩ :=
  quota_exceeded_blocks_all_work dbQuota 7 "2026-10" "Warfarin" "CYP2C9" .Patient
    ⟨7, "2026-10", 50⟩ (by decide) (by decide)

/-- C10: the limit banner can only arise from an existing UsageMonthly row
with query_count at or above 50; with no row for the month the quota gate
never denies. -/
theorem limit_reached_needs_existing_row (f : Faults) (db : Db) (userId : Nat)
    (month drugInput geneInput : String) (t : UserType) :
    ((handleSubmit f db userId month drugInput geneInput t).outcome = .limitReached →
      ∃ u, findUsage db userId month = some u ∧ u.query_count ≥ 50) ∧
    (findUsage db userId month = none →
      (handleSubmit f db userId month drugInput geneInput t).outcome ≠ .limitReached) := by
  have main : (handleSubmit f db userId month drugInput geneInput t).outcome = .limitReached →
      ∃ u, findUsage db userId month = some u ∧ u.query_count ≥ 50 := by
    intro hout
    cases hf : f.usageRead with
    | some m => simp [handleSubmit, hf] at hout
    | none =>
      simp only [handleSubmit, hf] at hout
      by_cases hq : quotaHit (findUsage db userId month) = true
      · cases hu : findUsage db userId month with
        | none => rw [hu] at hq; simp [quotaHit] at hq
        | some u =>
          rw [hu] at hq
          simp [quotaHit] at hq
          exact ⟨u, rfl, hq⟩
      · rw [if_neg hq] at hout
        split at hout
        · split at hout
          · simp at hout
          · split at hout
            · simp at hout
            · split at hout <;> simp at hout
        · simp at hout
  refine ⟨main, fun hnone hout => ?_⟩
  obtain ⟨u, hu, _⟩ := main hout
  rw [hnone] at hu
  exact Option.noConfusion hu
/-- C2: a successful query (quota not hit, drug, gene, interaction and its
guideline all resolved) renders the mode-appropriate answer with the
citations of the winning guideline, and upserts the UsageMonthly row:
an existing row for the month is incremented by one, otherwise a fresh
row with query_count 1 is inserted. -/
theorem success_upserts_usage (db : Db) (userId : Nat)
    (month drugInput geneInput : String) (t : UserType) (d : Drug) (g : Gene)
    (i : Interaction) (rest : List Interaction) (gl : Guideline)
    (hq : quotaHit (findUsage db userId month) = false)
    (hd : resolveDrug db drugInput = some d)
    (hg : resolveGene db geneInput = some g)
    (hi : interactionsFor db d.id g.id = i :: rest)
    (hgl : findGuideline db i = some gl) :
    (handleSubmit noFaults db userId month drugInput geneInput t).outcome =
      .success ⟨d.name, g.symbol,
        (match t with
         | .Patient => renderPatient gl i
         | .Clinician => renderClinician gl i (findPhenotype db i)),
        (citationsFor db gl.id).map citationLine⟩ ∧
    (handleSubmit noFaults db userId month drugInput geneInput t).db.usage_monthly =
      (match findUsage db userId month with
       | some u => db.usage_monthly.map fun r =>
           if r.user_id == userId && r.month == month then
             { r with query_count := u.query_count + 1 }
           else r
       | none => db.usage_monthly ++ [⟨userId, month, 1⟩]) := by
  cases hu : findUsage db userId month with
  | some u =>
    rw [hu] at hq
    constructor <;> simp [handleSubmit, noFaults, hq, hd, hg, hi, hgl, hu]
  | none =>
    rw [hu] at hq
    constructor <;> simp [handleSubmit, noFaults, hq, hd, hg, hi, hgl, hu]

/-- C2 witness: the end-to-end scenario — a user with no prior queries this
month asks Warfarin/CYP2C9 in patient mode, gets "Reduce dose" with its
citation, and UsageMonthly becomes the fresh row with query_count 1. -/
theorem success_upserts_usage_witness :
    (handleSubmit noFaults dbRef 7 "2026-10" "Warfarin" "CYP2C9" .Patient).outcome =
      .success ⟨"Warfarin", "CYP2C9", "Reduce dose",
        ["CPIC guideline - Johnson et al (CPT, 2017)"]⟩ ∧
    (handleSubmit noFaults dbRef 7 "2026-10" "Warfarin" "CYP2C9" .Patient).db.usage_monthly =
      [⟨7, "2026-10", 1⟩] :=
  success_upserts_usage dbRef 7 "2026-10" "Warfarin" "CYP2C9" .Patient
    ⟨1, "Warfarin"⟩ ⟨2, "CYP2C9"⟩ interRef [] glRef
    (by decide) (by decide) (by decide) (by decide) (by decide)
/-- C3 (amended): the clinician answer is always the five labeled sections
in the fixed order main summary, Action, Evidence, Phenotype, Evidence
Level; the main summary falls back from clinician_summary to the
interaction summary; only the Phenotype and Evidence Level sections fall
back to "N/A" when absent, while an absent Action or Evidence renders as
the JS string "null". -/
theorem clinician_render_sections (gl : Guideline) (i : Interaction) (ph : Option Phenotype) :
    ∃ mainPart actPart evPart phenoPart levelPart,
      renderClinician gl i ph =
        mainPart ++ "\n\nAction: " ++ actPart ++ "\n\nEvidence: " ++ evPart ++
          "\n\nPhenotype: " ++ phenoPart ++ "\n\nEvidence Level: " ++ levelPart ∧
      (∀ s, gl.clinician_summary = some s → s ≠ "" → mainPart = s) ∧
      (jsTruthy gl.clinician_summary = false → mainPart = jsStr i.summary) ∧
      (∀ s, i.action = some s → actPart = s) ∧
      (i.action = none → actPart = "null") ∧
      (∀ s, i.evidence = some s → evPart = s) ∧
      (i.evidence = none → evPart = "null") ∧
      (∀ p, ph = some p → p.phenotype ≠ "" → phenoPart = p.phenotype) ∧
      (ph = none → phenoPart = "N/A") ∧
      (∀ s, gl.evidence_level = some s → s ≠ "" → levelPart = s) ∧
      (gl.evidence_level = none → levelPart = "N/A") := by
  refine ⟨jsStr (jsOr gl.clinician_summary i.summary), jsStr i.action, jsStr i.evidence,
    jsStr (jsOr (ph.map fun p : Phenotype => p.phenotype) (some "N/A")),
    jsStr (jsOr gl.evidence_level (some "N/A")), rfl,
    ?_, ?_, ?_, ?_, ?_, ?_, ?_, ?_, ?_, ?_⟩
  · intro s hs hne
    simp [hs, jsOr, jsTruthy, jsStr, hne]
  · intro hfalse
    simp [jsOr, hfalse]
  · intro s hs
    simp [hs, jsStr]
  · intro hnone
    simp [hnone, jsStr]
  · intro s hs
    simp [hs, jsStr]
  · intro hnone
    simp [hnone, jsStr]
  · intro p hp hne
    simp [hp, jsOr, jsTruthy, jsStr, hne]
  · intro hnone
    simp [hnone, jsOr, jsTruthy, jsStr]
  · intro s hs hne
    simp [hs, jsOr, jsTruthy, jsStr, hne]
  · intro hnone
    simp [hnone, jsOr, jsTruthy, jsStr]

/-- C3 counterexample: with an absent action the code renders
"Action: null", not the "N/A" fallback the claim states for every
section. -/
theorem clinician_render_claim_cex :
    renderClinician glCex iCex none ≠ renderClinicianClaim glCex iCex none := by
  decide

/-- C5 (amended): the patient answer is patient_summary when present and
non-empty, else the interaction summary when present and non-empty, else
the literal — the JS || chain treats an empty string like an absent one. -/
theorem patient_render_fallbacks (gl : Guideline) (i : Interaction) :
    renderPatient gl i = renderPatientAmended gl i := by
  unfold renderPatient renderPatientAmended
  cases hp : gl.patient_summary with
  | none =>
    cases hs : i.summary with
    | none => rfl
    | some s =>
      by_cases he : s = "" <;> simp [presentNonempty, jsOr, jsTruthy, jsStr, he]
  | some p =>
    by_cases hpe : p = ""
    · cases hs : i.summary with
      | none => simp [presentNonempty, jsOr, jsTruthy, jsStr, hpe]
      | some s =>
        by_cases he : s = "" <;> simp [presentNonempty, jsOr, jsTruthy, jsStr, hpe, he]
    · simp [presentNonempty, jsOr, jsTruthy, jsStr, hpe]

/-- C5 counterexample: an empty (but present) patient_summary falls through
to the interaction summary, while the claim as stated keeps the empty
string. -/
theorem patient_render_claim_cex :
    renderPatient ⟨12, none, none, none, none, none, some "", none⟩
        ⟨22, none, none, none, none, none, some "Take with food", none⟩ ≠
      renderPatientClaim ⟨12, none, none, none, none, none, some "", none⟩
        ⟨22, none, none, none, none, none, some "Take with food", none⟩ := by
  decide
/-- C4 (amended): for inputs containing no LIKE wildcard (% or _), drug
resolution is case-insensitive substring matching of drugInput against
Drug.name (first match in storage order), gene resolution the same
against Gene.symbol, and when no row matches the lookup yields none; the
query flow then fails with the NotFound message. Inputs containing
wildcards are interpreted as ILIKE patterns instead (see the
counterexample). -/
theorem resolution_is_substring_match (db : Db) (input : String)
    (h : ∀ c ∈ input.data, c ≠ '%' ∧ c ≠ '_') :
    (∀ d, resolveDrug db input = some d →
      d ∈ db.drugs ∧ containsSub (lowerChars input) (lowerChars d.name) = true) ∧
    ((∀ d ∈ db.drugs, containsSub (lowerChars input) (lowerChars d.name) = false) →
      resolveDrug db input = none) ∧
    (∀ g, resolveGene db input = some g →
      g ∈ db.genes ∧ containsSub (lowerChars input) (lowerChars g.symbol) = true) ∧
    ((∀ g ∈ db.genes, containsSub (lowerChars input) (lowerChars g.symbol) = false) →
      resolveGene db input = none) ∧
    (∀ userId month geneInput t,
      quotaHit (findUsage db userId month) = false →
      resolveDrug db input = none →
      (handleSubmit noFaults db userId month input geneInput t).outcome
        = .errorMsg notFoundMsg) := by
  have hlow := lowerChars_no_wild input h
  have key : ∀ field, ilikeContains input field = containsSub (lowerChars input) (lowerChars field) :=
    fun field => ilikeContains_eq_containsSub input field hlow
  refine ⟨?_, ?_, ?_, ?_, ?_⟩
  · intro d hd
    have hd2 : db.drugs.find? (fun x => ilikeContains input x.name) = some d := hd
    refine ⟨List.mem_of_find?_eq_some hd2, ?_⟩
    rw [← key]
    simpa using List.find?_some hd2
  · intro hall
    unfold resolveDrug
    rw [List.find?_eq_none]
    intro d hdmem
    rw [key d.name, hall d hdmem]
    simp
  · intro g hg
    have hg2 : db.genes.find? (fun x => ilikeContains input x.symbol) = some g := hg
    refine ⟨List.mem_of_find?_eq_some hg2, ?_⟩
    rw [← key]
    simpa using List.find?_some hg2
  · intro hall
    unfold resolveGene
    rw [List.find?_eq_none]
    intro g hgmem
    rw [key g.symbol, hall g hgmem]
    simp
  · intro userId month geneInput t hq hnone
    cases hgene : resolveGene db geneInput with
    | none => simp [handleSubmit, noFaults, hq, hnone, hgene]
    | some g => simp [handleSubmit, noFaults, hq, hnone, hgene]

/-- C4 witness: "warf" resolves the drug named "Warfarin" (a genuine
case-insensitive substring match) and "zzzznotadrug" resolves nothing. -/
theorem resolution_is_substring_match_witness :
    resolveDrug dbRef "warf" = some ⟨1, "Warfarin"⟩ ∧
    containsSub (lowerChars "warf") (lowerChars "Warfarin") = true ∧
    resolveDrug dbRef "zzzznotadrug" = none ∧
    (handleSubmit noFaults dbRef 7 "2026-10" "zzzznotadrug" "CYP2C9" .Patient).outcome
      = .errorMsg notFoundMsg := by
  have h1 := (resolution_is_substring_match dbRef "warf" (by decide)).1
    ⟨1, "Warfarin"⟩ (by decide)
  have h2 := (resolution_is_substring_match dbRef "zzzznotadrug" (by decide)).2.2.2.2
    7 "2026-10" "CYP2C9" .Patient (by decide) (by decide)
  exact ⟨by decide, h1.2, by decide, h2⟩

/-- C4 counterexample: the input "W%n" resolves the drug "Warfarin" even
though "w%n" is not a substring of "warfarin" — the user input is spliced
into the ILIKE pattern, so % acts as a wildcard, refuting the claim that
resolution is substring matching for every input. -/
theorem resolution_wildcard_cex :
    resolveDrug dbRef "W%n" = some ⟨1, "Warfarin"⟩ ∧
    containsSub (lowerChars "W%n") (lowerChars "Warfarin") = false := by
  decide
/-- C6 (amended): an unresolved drug, an unresolved gene and an empty
interaction set are all shown as the one NotFound literal, never
distinguished; a failure of the usage read is surfaced verbatim as its
own message text. (Storage failures on the drug/gene/interaction reads,
however, are ignored by the code and collapse into the same NotFound
literal — see the counterexample.) -/
theorem failure_messages_collapse (db : Db) (userId : Nat)
    (month drugInput geneInput : String) (t : UserType) :
    (quotaHit (findUsage db userId month) = false →
      ((resolveDrug db drugInput = none →
        (handleSubmit noFaults db userId month drugInput geneInput t).outcome
          = .errorMsg notFoundMsg) ∧
       (resolveGene db geneInput = none →
        (handleSubmit noFaults db userId month drugInput geneInput t).outcome
          = .errorMsg notFoundMsg) ∧
       (∀ d g, resolveDrug db drugInput = some d → resolveGene db geneInput = some g →
        interactionsFor db d.id g.id = [] →
        (handleSubmit noFaults db userId month drugInput geneInput t).outcome
          = .errorMsg notFoundMsg))) ∧
    (∀ f : Faults, ∀ m, f.usageRead = some m →
      (handleSubmit f db userId month drugInput geneInput t).outcome = .errorMsg m) := by
  constructor
  · intro hq
    refine ⟨?_, ?_, ?_⟩
    · intro hd
      cases hgene : resolveGene db geneInput with
      | none => simp [handleSubmit, noFaults, hq, hd, hgene]
      | some g => simp [handleSubmit, noFaults, hq, hd, hgene]
    · intro hg
      cases hdrug : resolveDrug db drugInput with
      | none => simp [handleSubmit, noFaults, hq, hg, hdrug]
      | some d => simp [handleSubmit, noFaults, hq, hg, hdrug]
    · intro d g hd hg hi
      simp [handleSubmit, noFaults, hq, hd, hg, hi]
  · intro f m hf
    simp [handleSubmit, hf]

/-- C6 counterexample: a storage failure of the drug-table read (data comes
back null, the error object is never inspected) is shown as the very same
NotFound literal — not as different text — on a database where the same
query succeeds when storage is healthy. -/
theorem storage_failure_shows_notfound_cex :
    (handleSubmit faultsDrugRead dbRef 7 "2026-10" "Warfarin" "CYP2C9" .Patient).outcome
      = .errorMsg notFoundMsg ∧
    (handleSubmit noFaults dbRef 7 "2026-10" "Warfarin" "CYP2C9" .Patient).outcome
      = .success ⟨"Warfarin", "CYP2C9", "Reduce dose",
          ["CPIC guideline - Johnson et al (CPT, 2017)"]⟩ := by
  decide

/-- C7: a saved answer is a denormalized snapshot — after saving, editing
the underlying guideline summaries or the interaction summary leaves the
stored saved_answers rows exactly as they were: the snapshot row with the
drug name, gene symbol, view mode and answer text taken at save time. -/
theorem saved_answer_snapshot_immune (db : Db) (newId userId : Nat) (r : QueryResult)
    (ut : UserType) (gid : Nat) (p c : Option String) (iid : Nat) (s : Option String) :
    (setInteractionSummary (setGuidelineSummaries (handleSave db newId userId r ut) gid p c)
        iid s).saved_answers
      = db.saved_answers ++ [⟨newId, userId, r.drug, r.gene, userTypeStr ut, r.answer⟩] ∧
    (⟨newId, userId, r.drug, r.gene, userTypeStr ut, r.answer⟩ : SavedAnswerRow) ∈
      (setInteractionSummary (setGuidelineSummaries (handleSave db newId userId r ut) gid p c)
        iid s).saved_answers := by
  constructor
  · rfl
  · simp [setInteractionSummary, setGuidelineSummaries, handleSave]

/-- C8: deletion under the row-level policy — rows owned by another user
survive every delete call, and when no visible row matches the id the
delete is an idempotent no-op on the whole store. -/
theorem delete_never_touches_other_users (db : Db) (callerId rowId : Nat) :
    (∀ r ∈ db.saved_answers, r.user_id ≠ callerId →
      r ∈ (handleDelete db callerId rowId).saved_answers) ∧
    ((∀ r ∈ db.saved_answers, ¬(r.id = rowId ∧ r.user_id = callerId)) →
      handleDelete db callerId rowId = db) := by
  constructor
  · intro r hr hne
    refine List.mem_filter.mpr ⟨hr, ?_⟩
    simp [hne]
  · intro hall
    unfold handleDelete
    have hfilter : db.saved_answers.filter
        (fun r => !(r.id == rowId && r.user_id == callerId)) = db.saved_answers := by
      rw [List.filter_eq_self]
      intro r hr
      have h2 := hall r hr
      simp only [not_and] at h2
      simpa [Decidable.imp_iff_not_or] using h2
    rw [hfilter]

/-- C9: an ingestion-job row is inserted if and only if the webhook POST is
acknowledged: an ok response appends exactly one pending row and toasts
success, a failed POST leaves the store untouched and surfaces the error
toast, and a second ok trigger appends a second row (no idempotency). -/
theorem trigger_ingestion_iff_ack (db : Db) (jobType now now2 : String) :
    (triggerWebhook db jobType true now).1.ingestion_jobs
      = db.ingestion_jobs ++ [⟨jobType, "pending", some now⟩] ∧
    (triggerWebhook db jobType true now).2
      = .success (jobType ++ " triggered successfully") ∧
    triggerWebhook db jobType false now = (db, .error "Webhook failed") ∧
    (triggerWebhook (triggerWebhook db jobType true now).1 jobType true now2).1.ingestion_jobs
      = db.ingestion_jobs ++ [⟨jobType, "pending", some now⟩, ⟨jobType, "pending", some now2⟩] := by
  refine ⟨rfl, rfl, rfl, ?_⟩
  simp [triggerWebhook]

end MedExplain
